import Mathlib

/-!
Verification of the filter-driven search pipeline of `src/pages/Index.tsx`
(the dishatt video search UI): persisted filter state, the search
invocation contract, incremental ("load more") pagination, and the
loading/failure transitions.

Modelling notes.
* JavaScript values that can sit in the persistence slot are modelled by
  `Json`.  `localStorage` is modelled by `Storage`: either unavailable
  (every access throws) or available with the single slot this code ever
  touches, the one under the key `"disha-filters"`.
* React state updates and the re-renders they cause are modelled by a step
  function on an explicit component state.  Object identity of the
  `filters` state (what `Object.is` compares in the `useState` bail-out
  and in the `useEffect` dependency check) is modelled by a reference
  counter: reference 0 is the module constant `initialFilters`; every
  object spread allocates a fresh positive reference.
* `performSearch` is created by `useCallback` with dependency list
  `[toast]`; the `toast` function of the notification sink is
  referentially stable across renders, so the closure is created once, at
  the first render, and captures the initial `visibleCount` value 10.
  The state field `capturedVisibleCount` records that captured value; it
  is set at mount and never written again.
* A handler together with the effect run that its state updates trigger is
  modelled as one atomic step (the spec gives run-to-completion semantics
  between suspension points); the asynchronous `searchVideos` call is
  split into an invocation record (appended to `invocations` and
  `pending`) and a separate resolution event.
-/

namespace Disha

/-- The four-field filter record (`SearchFilters` from the types module);
empty string means unconstrained. -/
structure FilterSet where
  language : String
  source : String
  durationBand : String
  year : String
deriving DecidableEq, Repr

/-- The module constant `initialFilters`: all four fields empty. -/
def initialFilters : FilterSet := ⟨"", "", "", ""⟩

/-- A key of `SearchFilters` (the `keyof SearchFilters` argument of
`handleFilterChange`). -/
inductive FilterKey
  | language
  | source
  | durationBand
  | year
deriving DecidableEq, Repr

/-- The object spread update of `handleFilterChange`:
`{ ...filters, [key]: value }`. -/
def setField (f : FilterSet) : FilterKey → String → FilterSet
  | .language, v => { f with language := v }
  | .source, v => { f with source := v }
  | .durationBand, v => { f with durationBand := v }
  | .year, v => { f with year := v }

/-- JSON values, restricted to the constructors this development needs. -/
inductive Json
  | str (s : String)
  | obj (fields : List (String × Json))
deriving Repr

/-- The JS object denoting a FilterSet, with fields in declaration order
(the order `JSON.stringify` serializes them in). -/
def encodeFilters (f : FilterSet) : Json :=
  .obj [("language", .str f.language), ("source", .str f.source),
        ("durationBand", .str f.durationBand), ("year", .str f.year)]

/-- Which JSON values are serializations of a FilterSet.  The source
performs no such check (it casts the parse result); this definition only
delimits the component model and expresses structural equality of a parsed
value with a FilterSet. -/
def decodeFilterSet : Json → Option FilterSet
  | .obj [("language", .str l), ("source", .str s),
          ("durationBand", .str d), ("year", .str y)] => some ⟨l, s, d, y⟩
  | _ => none

/-- A string stored in the slot, classified by whether `JSON.parse`
succeeds on it. -/
inductive StoredText
  | notJson
  | jsonOf (v : Json)

/-- Contents of the slot under the key `"disha-filters"`. -/
inductive Slot
  | absent
  | text (t : StoredText)

/-- The browser storage backend: inaccessible (every access throws), or
available with the contents of the `"disha-filters"` slot.  No other key
is ever read or written by this code. -/
inductive Storage
  | unavailable
  | available (slot : Slot)

/-- The fixed storage key. -/
def STORAGE_KEY : String := "disha-filters"

/-- `localStorage.getItem(STORAGE_KEY)`: throws when the backend is
inaccessible, otherwise returns the slot contents (`null` for absent). -/
def localStorageGetItem : Storage → Except Unit (Option StoredText)
  | .unavailable => .error ()
  | .available .absent => .ok none
  | .available (.text t) => .ok (some t)

/-- `JSON.parse`: throws on text that is not valid JSON, otherwise yields
the parsed value. -/
def jsonParse : StoredText → Except Unit Json
  | .notJson => .error ()
  | .jsonOf v => .ok v

/-- `JSON.stringify` of a FilterSet: valid JSON text denoting its
object. -/
def jsonStringify (f : FilterSet) : StoredText := .jsonOf (encodeFilters f)

/-- The JS value of the module constant `initialFilters`. -/
def jsInitialFilters : Json := encodeFilters initialFilters

/-- Body of `getStoredFilters` without its try/catch: read the slot; an
absent slot yields `initialFilters`; stored text is JSON-parsed and the
parse result returned unvalidated. -/
def rawGetStoredFilters (st : Storage) : Except Unit Json := do
  let stored ← localStorageGetItem st
  match stored with
  | some t => jsonParse t
  | none => pure jsInitialFilters

/-- `getStoredFilters`: the body above wrapped in its catch, which returns
`initialFilters` on any throw.  The result is whatever JS value the parse
produced; the source casts it to `SearchFilters` without validation. -/
def getStoredFilters (st : Storage) : Json :=
  match rawGetStoredFilters st with
  | .ok v => v
  | .error _ => jsInitialFilters

/-- Body of `storeFilters` without its try/catch:
`localStorage.setItem(STORAGE_KEY, JSON.stringify(filters))`, which throws
when the backend is inaccessible. -/
def rawStoreFilters (st : Storage) (f : FilterSet) : Except Unit Storage :=
  match st with
  | .unavailable => .error ()
  | .available _ => .ok (.available (.text (jsonStringify f)))

/-- `storeFilters`: the body above wrapped in its catch; a storage failure
is silently swallowed, leaving the backend as it was. -/
def storeFilters (st : Storage) (f : FilterSet) : Storage :=
  match rawStoreFilters st f with
  | .ok st2 => st2
  | .error _ => st

/-- One matched video (`VideoResult`), opaque apart from identity. -/
structure VideoResult where
  vid : Nat
deriving DecidableEq, Repr

/-- One notification handed to the toast sink. -/
structure Toast where
  title : String
  description : String
  variant : String
deriving DecidableEq, Repr

/-- The fixed failure notification emitted by the catch branch of
`performSearch`. -/
def failureToast : Toast :=
  ⟨"Search failed", "Unable to fetch results. Please try again.", "destructive"⟩

/-- The state of the `Index` component, together with bookkeeping of
in-flight search invocations and emitted notifications.  `filtersRef`
models the object identity of the `filters` state (0 is the module
constant `initialFilters`); `nextRef` allocates fresh object references;
`nextInv` numbers `searchVideos` invocations in start order;
`invocations` logs every invocation with the FilterSet it was called
with; `pending` holds the invocations whose promise has not settled. -/
structure CState where
  filtersRef : Nat
  filters : FilterSet
  allVideos : List VideoResult
  displayedVideos : List VideoResult
  isLoading : Bool
  visibleCount : Nat
  capturedVisibleCount : Nat
  nextRef : Nat
  nextInv : Nat
  pending : List Nat
  invocations : List (Nat × FilterSet)
  toasts : List Toast
  storage : Storage

/-- The synchronous prefix of `performSearch` up to the `await`: set the
loading flag and start one `searchVideos` invocation with the given
filters.  The continuation after the `await` is the resolution event. -/
def performSearch (s : CState) (f : FilterSet) : CState :=
  { s with isLoading := true,
           pending := s.pending ++ [s.nextInv],
           invocations := s.invocations ++ [(s.nextInv, f)],
           nextInv := s.nextInv + 1 }

/-- External events driving the component. -/
inductive Event
  | filterChange (k : FilterKey) (v : String)
  | clearFilters
  | loadMore
  | resolveOk (id : Nat) (results : List VideoResult)
  | resolveErr (id : Nat)

/-- One atomic step of the component.

`filterChange`: `handleFilterChange` builds the spread-updated FilterSet
(a fresh object), sets it as state, persists it, and calls `performSearch`
directly; the state change then re-runs the effect on
`[filters, performSearch]`, which calls `performSearch` once more with the
same FilterSet.

`clearFilters`: `handleClearFilters` calls `setFilters(initialFilters)`
and `storeFilters(initialFilters)` and nothing else.  When the current
`filters` object is already the `initialFilters` constant, React bails
out of the update (`Object.is` equal) and the effect does not re-run;
otherwise the filters state changes, and the effect re-runs and triggers a
search with `initialFilters`.

`loadMore`: `handleLoadMore` adds 10 to `visibleCount` and re-slices
`allVideos`.

`resolveOk`: the success continuation of `performSearch` stores the
results and slices them with the captured window size; the `finally`
clears the loading flag.  `visibleCount` is not written.

`resolveErr`: the catch branch emits the fixed failure toast; the
`finally` clears the loading flag; results and window state are not
touched.  Resolution events for invocations that are not pending do not
occur (a promise settles once); they are modelled as no-ops. -/
def step (s : CState) : Event → CState
  | .filterChange k v =>
    let f2 := setField s.filters k v
    let s1 := { s with filters := f2, filtersRef := s.nextRef,
                       nextRef := s.nextRef + 1,
                       storage := storeFilters s.storage f2 }
    performSearch (performSearch s1 f2) f2
  | .clearFilters =>
    let s1 := { s with storage := storeFilters s.storage initialFilters }
    if s.filtersRef = 0 then s1
    else
      performSearch { s1 with filters := initialFilters, filtersRef := 0 }
        initialFilters
  | .loadMore =>
    { s with visibleCount := s.visibleCount + 10,
             displayedVideos := s.allVideos.take (s.visibleCount + 10) }
  | .resolveOk id results =>
    if id ∈ s.pending then
      { s with pending := s.pending.erase id,
               allVideos := results,
               displayedVideos := results.take s.capturedVisibleCount,
               isLoading := false }
    else s
  | .resolveErr id =>
    if id ∈ s.pending then
      { s with pending := s.pending.erase id,
               toasts := s.toasts ++ [failureToast],
               isLoading := false }
    else s

/-- The component state right after mount: the state hooks are
initialized (filters restored with reference `ref`, empty result lists,
window size 10), then the mount run of the effect starts one search with
the restored filters. -/
def mountState (ref : Nat) (f : FilterSet) (st : Storage) : CState :=
  performSearch
    { filtersRef := ref, filters := f, allVideos := [], displayedVideos := [],
      isLoading := false, visibleCount := 10, capturedVisibleCount := 10,
      nextRef := ref + 1, nextInv := 0, pending := [], invocations := [],
      toasts := [], storage := st } f

/-- Mount from a given storage, via `getStoredFilters`.  The result is
`none` only when the slot holds JSON that is not a FilterSet
serialization: the component would then carry a non-record filters value,
a corner outside the component model (the Filter Store layer above covers
it) on which no claim depends. -/
def mountFromStorage (st : Storage) : Option CState :=
  match st with
  | .unavailable => some (mountState 0 initialFilters st)
  | .available .absent => some (mountState 0 initialFilters st)
  | .available (.text .notJson) => some (mountState 0 initialFilters st)
  | .available (.text (.jsonOf v)) =>
    match decodeFilterSet v with
    | some f => some (mountState 1 f st)
    | none => none

/-- The render condition of the load-more button:
`allVideos.length > displayedVideos.length`. -/
def hasMore (s : CState) : Bool :=
  decide (s.allVideos.length > s.displayedVideos.length)

/-- `n` successive load-more clicks. -/
def iterLoadMore : Nat → CState → CState
  | 0, s => s
  | n + 1, s => step (iterLoadMore n s) .loadMore

/-! ### Concrete reachable states used by counterexamples and witnesses -/

/-- Mount with an available but empty storage slot: filters are the
`initialFilters` constant (reference 0), invocation 0 is in flight. -/
def sMount : CState := mountState 0 initialFilters (.available .absent)

/-- `mountFromStorage` on an empty slot yields `sMount`. -/
theorem mountFromStorage_absent :
    mountFromStorage (.available .absent) = some sMount := rfl

/-- `sMount` after the user sets `language` to `"hi"`: the filters object
is now a fresh one (reference 1), and invocations 1 (direct call) and 2
(effect re-run) are in flight besides invocation 0. -/
def bChanged : CState := step sMount (.filterChange .language "hi")

/-- A 25-element result list. -/
def resultsA : List VideoResult := (List.range 25).map (fun n => ⟨n⟩)

/-- Another 25-element result list, disjoint from `resultsA`. -/
def resultsB : List VideoResult := (List.range 25).map (fun n => ⟨100 + n⟩)

/-- `sMount` with the mount search resolved successfully with the 25
results `resultsA`: 10 of them displayed, `visibleCount = 10`. -/
def tFirst : CState := step sMount (.resolveOk 0 resultsA)

/-- `tFirst` after two load-more clicks: all 25 results displayed,
`visibleCount = 30`. -/
def tGrown : CState := step (step tFirst .loadMore) .loadMore

/-- `tGrown` after the user sets `language` to `"hi"`: invocations 1 and 2
are in flight, `visibleCount` still 30. -/
def tChanged : CState := step tGrown (.filterChange .language "hi")

/-- `tChanged` with invocation 1 resolved successfully with `resultsB`:
a state right after a successful search. -/
def tResolved : CState := step tChanged (.resolveOk 1 resultsB)

/-- Result list of the earlier invocation in the overlap scenario. -/
def resultsEn : List VideoResult := [⟨1⟩]

/-- Result list of the later invocation in the overlap scenario. -/
def resultsHi : List VideoResult := [⟨2⟩]

/-- `sMount` with the mount search resolved empty, then `language` set to
`"en"`: invocations 1 and 2 (both with `language = "en"`) in flight. -/
def uEn : CState := step (step sMount (.resolveOk 0 [])) (.filterChange .language "en")

/-- `uEn` with `language` then set to `"hi"`: invocations 3 and 4 (both
with `language = "hi"`) started after invocations 1 and 2. -/
def uHi : CState := step uEn (.filterChange .language "hi")

/-! ### Helper lemmas -/

/-- One load-more click adds exactly 10 to `visibleCount`. -/
theorem step_loadMore_visibleCount (t : CState) :
    (step t .loadMore).visibleCount = t.visibleCount + 10 := rfl

/-- A load-more click does not change the result set. -/
theorem step_loadMore_allVideos (t : CState) :
    (step t .loadMore).allVideos = t.allVideos := rfl

/-- A load-more click re-slices the result set at the grown count. -/
theorem step_loadMore_displayed (t : CState) :
    (step t .loadMore).displayedVideos = t.allVideos.take (t.visibleCount + 10) := rfl

/-- `visibleCount` after `n` load-more clicks. -/
theorem iterLoadMore_visibleCount (n : Nat) (s : CState) :
    (iterLoadMore n s).visibleCount = s.visibleCount + 10 * n := by
  induction n with
  | zero => simp [iterLoadMore]
  | succ m ih =>
    show (step (iterLoadMore m s) .loadMore).visibleCount = _
    rw [step_loadMore_visibleCount, ih]
    omega

/-- Load-more clicks leave the result set unchanged. -/
theorem iterLoadMore_allVideos (n : Nat) (s : CState) :
    (iterLoadMore n s).allVideos = s.allVideos := by
  induction n with
  | zero => rfl
  | succ m ih =>
    show (step (iterLoadMore m s) .loadMore).allVideos = _
    rw [step_loadMore_allVideos, ih]

/-! ### Claims -/

/-- C1 counterexample: the claim says a clear-filters request does not
trigger a new search invocation.  In the reachable state `bChanged`
(mount, then `language` set to `"hi"`), a clear-filters request starts a
fourth `searchVideos` invocation, with the default FilterSet: the
`useEffect` on `[filters, performSearch]` re-runs because the filters
state object changed from the fresh spread object back to
`initialFilters`. -/
theorem C1_counterexample :
    bChanged.invocations.length = 3 ∧
    (step bChanged .clearFilters).invocations =
      bChanged.invocations ++ [(3, initialFilters)] ∧
    (step bChanged .clearFilters).pending = bChanged.pending ++ [3] := by
  decide

/-- C1 (amended): on a clear-filters request the FilterSet is reset to the
default and persisted, and the displayed results and window are unchanged
at the moment of the clear; but whenever the current filters object is not
the `initialFilters` constant (as after any filter change), the effect on
the filters state re-runs and DOES start a new search invocation with the
default FilterSet. -/
theorem C1_clear_triggers_search (s : CState) (h : s.filtersRef ≠ 0) :
    (step s .clearFilters).filters = initialFilters ∧
    (step s .clearFilters).storage = storeFilters s.storage initialFilters ∧
    (step s .clearFilters).allVideos = s.allVideos ∧
    (step s .clearFilters).displayedVideos = s.displayedVideos ∧
    (step s .clearFilters).visibleCount = s.visibleCount ∧
    (step s .clearFilters).invocations =
      s.invocations ++ [(s.nextInv, initialFilters)] := by
  simp [step, performSearch, h]

/-- C1 witness: the amended clear-filters behavior at the concrete state
`bChanged`. -/
theorem C1_clear_triggers_search_witness :
    bChanged.filtersRef ≠ 0 ∧
    ((step bChanged .clearFilters).filters = initialFilters ∧
     (step bChanged .clearFilters).storage = storeFilters bChanged.storage initialFilters ∧
     (step bChanged .clearFilters).allVideos = bChanged.allVideos ∧
     (step bChanged .clearFilters).displayedVideos = bChanged.displayedVideos ∧
     (step bChanged .clearFilters).visibleCount = bChanged.visibleCount ∧
     (step bChanged .clearFilters).invocations =
       bChanged.invocations ++ [(bChanged.nextInv, initialFilters)]) :=
  ⟨by decide, C1_clear_triggers_search bChanged (by decide)⟩

/-- C2 counterexample: the claim says a successful search resets
`visibleCount` to 10.  In the reachable state `tChanged` (window grown to
30 by two load-more clicks, then a filter change), resolving invocation 1
successfully leaves `visibleCount` at 30: `performSearch` never writes
`visibleCount`. -/
theorem C2_counterexample :
    1 ∈ tChanged.pending ∧
    tResolved.allVideos = resultsB ∧
    tResolved.visibleCount = 30 ∧
    ¬ tResolved.visibleCount = 10 := by
  decide

/-- C2 (amended): on a successful resolution the displayed list is the
result prefix cut at the window size captured by the `performSearch`
closure at first render (10), so its length is `min 10 |R|`; but
`visibleCount` is NOT reset: it keeps whatever value it had before the
search. -/
theorem C2_reset_amended (s : CState) (id : Nat) (R : List VideoResult)
    (hp : id ∈ s.pending) (hc : s.capturedVisibleCount = 10) :
    (step s (.resolveOk id R)).displayedVideos = R.take 10 ∧
    (step s (.resolveOk id R)).displayedVideos.length = min 10 R.length ∧
    (step s (.resolveOk id R)).allVideos = R ∧
    (step s (.resolveOk id R)).visibleCount = s.visibleCount := by
  simp [step, hp, hc, List.length_take]

/-- C2 witness: the amended resolution behavior at the concrete state
`tChanged` with the 25-element result list `resultsB`. -/
theorem C2_reset_amended_witness :
    1 ∈ tChanged.pending ∧ tChanged.capturedVisibleCount = 10 ∧
    ((step tChanged (.resolveOk 1 resultsB)).displayedVideos = resultsB.take 10 ∧
     (step tChanged (.resolveOk 1 resultsB)).displayedVideos.length = min 10 resultsB.length ∧
     (step tChanged (.resolveOk 1 resultsB)).allVideos = resultsB ∧
     (step tChanged (.resolveOk 1 resultsB)).visibleCount = tChanged.visibleCount) :=
  ⟨by decide, by decide, C2_reset_amended tChanged 1 resultsB (by decide) (by decide)⟩

/-- C3: on a failed search resolution exactly one failure toast (fixed
title `Search failed`, fixed description) is appended, the result set,
displayed window and `visibleCount` are unchanged from before the attempt,
and the loading flag is cleared (the code has no explicit state enum; the
Failed state of the spec is this observable combination). -/
theorem C3_failure_behavior (s : CState) (id : Nat) (hp : id ∈ s.pending) :
    (step s (.resolveErr id)).toasts = s.toasts ++ [failureToast] ∧
    (step s (.resolveErr id)).allVideos = s.allVideos ∧
    (step s (.resolveErr id)).displayedVideos = s.displayedVideos ∧
    (step s (.resolveErr id)).visibleCount = s.visibleCount ∧
    (step s (.resolveErr id)).isLoading = false := by
  simp [step, hp]

/-- C3 witness: the failure behavior at the freshly mounted state with its
pending invocation 0. -/
theorem C3_failure_behavior_witness :
    0 ∈ sMount.pending ∧
    ((step sMount (.resolveErr 0)).toasts = sMount.toasts ++ [failureToast] ∧
     (step sMount (.resolveErr 0)).allVideos = sMount.allVideos ∧
     (step sMount (.resolveErr 0)).displayedVideos = sMount.displayedVideos ∧
     (step sMount (.resolveErr 0)).visibleCount = sMount.visibleCount ∧
     (step sMount (.resolveErr 0)).isLoading = false) :=
  ⟨by decide, C3_failure_behavior sMount 0 (by decide)⟩

/-- C4: a filter-change request setting one field updates exactly that
field of the FilterSet, persists the result (serialized) to the
`disha-filters` slot when storage is available, and starts search
invocations carrying exactly that FilterSet (the direct call in
`handleFilterChange` and the effect re-run). -/
theorem C4_filter_change (s : CState) (k : FilterKey) (v : String)
    (c : Slot) (hst : s.storage = .available c) :
    (step s (.filterChange k v)).filters = setField s.filters k v ∧
    (step s (.filterChange k v)).storage =
      .available (.text (jsonStringify (setField s.filters k v))) ∧
    (step s (.filterChange k v)).invocations =
      s.invocations ++ [(s.nextInv, setField s.filters k v),
                        (s.nextInv + 1, setField s.filters k v)] := by
  simp [step, performSearch, storeFilters, rawStoreFilters, hst]

/-- C4 witness: the filter-change behavior at the freshly mounted state,
setting `language` to `"hi"`. -/
theorem C4_filter_change_witness :
    sMount.storage = .available .absent ∧
    ((step sMount (.filterChange .language "hi")).filters =
       setField sMount.filters .language "hi" ∧
     (step sMount (.filterChange .language "hi")).storage =
       .available (.text (jsonStringify (setField sMount.filters .language "hi"))) ∧
     (step sMount (.filterChange .language "hi")).invocations =
       sMount.invocations ++
         [(sMount.nextInv, setField sMount.filters .language "hi"),
          (sMount.nextInv + 1, setField sMount.filters .language "hi")]) :=
  ⟨rfl, C4_filter_change sMount .language "hi" .absent rfl⟩

/-- C5: over any nonempty sequence of load-more requests between two
searches, every request adds exactly 10 to `visibleCount` (so the count is
non-decreasing), the result set is untouched, and after the sequence the
displayed list is the prefix `ResultSet.take visibleCount`, of length
`min visibleCount |ResultSet|`, hence never longer than the ResultSet and
an order-preserving prefix of it. -/
theorem C5_window_monotone (s : CState) (n : Nat) (h : 1 ≤ n) :
    (∀ k : Nat, (iterLoadMore (k + 1) s).visibleCount =
      (iterLoadMore k s).visibleCount + 10) ∧
    (iterLoadMore n s).visibleCount = s.visibleCount + 10 * n ∧
    (iterLoadMore n s).allVideos = s.allVideos ∧
    (iterLoadMore n s).displayedVideos =
      s.allVideos.take ((iterLoadMore n s).visibleCount) ∧
    (iterLoadMore n s).displayedVideos.length =
      min ((iterLoadMore n s).visibleCount) s.allVideos.length ∧
    (∃ rest, (iterLoadMore n s).displayedVideos ++ rest = s.allVideos) := by
  obtain ⟨m, rfl⟩ : ∃ m, n = m + 1 := ⟨n - 1, by omega⟩
  have hstep : iterLoadMore (m + 1) s = step (iterLoadMore m s) .loadMore := rfl
  have hdisp : (iterLoadMore (m + 1) s).displayedVideos =
      s.allVideos.take ((iterLoadMore (m + 1) s).visibleCount) := by
    rw [hstep, step_loadMore_displayed, step_loadMore_visibleCount,
        iterLoadMore_allVideos]
  refine ⟨fun k => step_loadMore_visibleCount (iterLoadMore k s),
    iterLoadMore_visibleCount _ s, iterLoadMore_allVideos _ s, hdisp, ?_, ?_⟩
  · rw [hdisp, List.length_take]
  · exact ⟨s.allVideos.drop ((iterLoadMore (m + 1) s).visibleCount),
      by rw [hdisp]; exact List.take_append_drop _ _⟩

/-- C5 witness: one load-more click on the freshly mounted state. -/
theorem C5_window_monotone_witness :
    1 ≤ 1 ∧
    ((∀ k : Nat, (iterLoadMore (k + 1) sMount).visibleCount =
       (iterLoadMore k sMount).visibleCount + 10) ∧
     (iterLoadMore 1 sMount).visibleCount = sMount.visibleCount + 10 * 1 ∧
     (iterLoadMore 1 sMount).allVideos = sMount.allVideos ∧
     (iterLoadMore 1 sMount).displayedVideos =
       sMount.allVideos.take ((iterLoadMore 1 sMount).visibleCount) ∧
     (iterLoadMore 1 sMount).displayedVideos.length =
       min ((iterLoadMore 1 sMount).visibleCount) sMount.allVideos.length ∧
     (∃ rest, (iterLoadMore 1 sMount).displayedVideos ++ rest = sMount.allVideos)) :=
  ⟨by decide, C5_window_monotone sMount 1 (by decide)⟩

/-- C6 counterexample: the claim says the load-more action is shown iff
`visibleCount < |ResultSet|`.  In the reachable state `tResolved` (window
previously grown to 30, then a new search resolved with 25 results), the
button is shown (10 displayed out of 25) although `visibleCount = 30` is
not less than 25. -/
theorem C6_counterexample :
    hasMore tResolved = true ∧
    ¬ tResolved.visibleCount < tResolved.allVideos.length := by
  decide

/-- C6 (amended): the load-more action is shown iff strictly fewer items
are displayed than the ResultSet holds; this coincides with
`visibleCount < |ResultSet|` exactly in the states where the displayed
list is the `visibleCount`-prefix of the ResultSet (resolution with the
stale captured window size can leave states outside that set). -/
theorem C6_hasMore_amended (s : CState)
    (hd : s.displayedVideos = s.allVideos.take s.visibleCount) :
    (hasMore s = true ↔ s.displayedVideos.length < s.allVideos.length) ∧
    (hasMore s = true ↔ s.visibleCount < s.allVideos.length) := by
  constructor
  · simp [hasMore]
  · simp [hasMore, hd, List.length_take]

/-- C6 witness: the amended `hasMore` characterization at the state
`tFirst`, where 10 of 25 results are displayed. -/
theorem C6_hasMore_amended_witness :
    tFirst.displayedVideos = tFirst.allVideos.take tFirst.visibleCount ∧
    ((hasMore tFirst = true ↔ tFirst.displayedVideos.length < tFirst.allVideos.length) ∧
     (hasMore tFirst = true ↔ tFirst.visibleCount < tFirst.allVideos.length)) :=
  ⟨by decide, C6_hasMore_amended tFirst (by decide)⟩

/-- C7 counterexample: the claim says malformed stored content makes
`load()` return the default FilterSet.  The stored text denoting the JSON
string `"hi"` is not the serialization of any FilterSet, yet
`getStoredFilters` returns the parsed string itself, not the default: the
source casts the parse result without shape validation. -/
theorem C7_counterexample :
    (∀ f : FilterSet, jsonStringify f ≠ .jsonOf (.str "hi")) ∧
    getStoredFilters (.available (.text (.jsonOf (.str "hi")))) = .str "hi" ∧
    getStoredFilters (.available (.text (.jsonOf (.str "hi")))) ≠ jsInitialFilters := by
  refine ⟨?_, rfl, fun h => Json.noConfusion h⟩
  intro f h
  simp [jsonStringify, encodeFilters] at h

/-- C7 (amended): `load()` returns the default FilterSet and never throws
on an inaccessible backend, an absent slot, or stored text that fails JSON
parsing; stored text that parses to any JSON value is returned unvalidated
(so valid JSON of the wrong shape is not replaced by the default).
`save(f)` swallows any storage failure: on an unavailable backend it is a
no-op and never throws. -/
theorem C7_load_save_amended :
    getStoredFilters .unavailable = jsInitialFilters ∧
    getStoredFilters (.available .absent) = jsInitialFilters ∧
    getStoredFilters (.available (.text .notJson)) = jsInitialFilters ∧
    (∀ v : Json, getStoredFilters (.available (.text (.jsonOf v))) = v) ∧
    (∀ f : FilterSet, storeFilters .unavailable f = .unavailable) :=
  ⟨rfl, rfl, rfl, fun _ => rfl, fun _ => rfl⟩

/-- C8: with an available backend, `load()` after `save(f)` returns the JS
value of `f` itself, which decodes to a FilterSet structurally equal to
`f`. -/
theorem C8_save_load_roundtrip (f : FilterSet) (c : Slot) :
    getStoredFilters (storeFilters (.available c) f) = encodeFilters f ∧
    decodeFilterSet (encodeFilters f) = some f :=
  ⟨rfl, rfl⟩

/-- C9 counterexample: the claim says a late resolution of an earlier
invocation is discarded.  Invocation 1 (language `"en"`) starts before
invocation 3 (language `"hi"`); resolving invocation 3 first and then
invocation 1 leaves invocation 1 results stored and displayed: the late
resolution of the earlier request overwrites the newer results. -/
theorem C9_counterexample :
    uHi.invocations =
      [(0, initialFilters), (1, ⟨"en", "", "", ""⟩), (2, ⟨"en", "", "", ""⟩),
       (3, ⟨"hi", "", "", ""⟩), (4, ⟨"hi", "", "", ""⟩)] ∧
    (step (step uHi (.resolveOk 3 resultsHi)) (.resolveOk 1 resultsEn)).allVideos
      = resultsEn ∧
    (step (step uHi (.resolveOk 3 resultsHi)) (.resolveOk 1 resultsEn)).displayedVideos
      = resultsEn ∧
    resultsEn ≠ resultsHi := by
  decide

/-- C9 (amended): there is no invocation-order guard; every arriving
resolution of a pending invocation overwrites the ResultSet and displayed
window, so the display reflects whichever invocation resolves last, not
the one that started last. -/
theorem C9_resolution_order_wins (s : CState) (id : Nat)
    (R : List VideoResult) (hp : id ∈ s.pending) :
    (step s (.resolveOk id R)).allVideos = R ∧
    (step s (.resolveOk id R)).displayedVideos = R.take s.capturedVisibleCount := by
  simp [step, hp]

/-- C9 witness: the overwrite-on-resolution behavior at the concrete state
`uHi` for the pending earlier invocation 1. -/
theorem C9_resolution_order_wins_witness :
    1 ∈ uHi.pending ∧
    ((step uHi (.resolveOk 1 resultsEn)).allVideos = resultsEn ∧
     (step uHi (.resolveOk 1 resultsEn)).displayedVideos =
       resultsEn.take uHi.capturedVisibleCount) :=
  ⟨by decide, C9_resolution_order_wins uHi 1 resultsEn (by decide)⟩

/-- C10: both exit paths of a search invocation, success and failure,
clear the loading flag (the `finally` block), so the controller never
stays in the Loading state after a resolution. -/
theorem C10_loading_cleared (s : CState) (id : Nat) (R : List VideoResult)
    (hp : id ∈ s.pending) :
    (step s (.resolveOk id R)).isLoading = false ∧
    (step s (.resolveErr id)).isLoading = false := by
  simp [step, hp]

/-- C10 witness: the loading flag after resolving the mount invocation,
successfully or not. -/
theorem C10_loading_cleared_witness :
    0 ∈ sMount.pending ∧
    ((step sMount (.resolveOk 0 [])).isLoading = false ∧
     (step sMount (.resolveErr 0)).isLoading = false) :=
  ⟨by decide, C10_loading_cleared sMount 0 [] (by decide)⟩

end Disha
